import Mathlib

/-!
# Verification of the Empathy Engine pipeline

Shallow embedding of the core modules of the empathy-engine repository:

* src/empathy_engine/voice_mapper.py     — VoiceMapper, EMOTION_PROFILE
* src/empathy_engine/emotion_detector.py — EmotionDetector, HF_LABEL_MAP, VADER_POLARITY_MAP
* src/empathy_engine/tts_engine.py       — TTSEngine.synthesize backend dispatch
* src/web/app.py                         — the /synthesize HTTP route

Python floats are modelled as exact rationals (ℚ); every numeric literal of
the source is exactly representable at the precision the source writes it.
Python exceptions are modelled with Except String.  External collaborators
(the VADER analyser, the HuggingFace pipeline, the OS-level speech backends)
are parameters of the embedded functions, so theorems quantify over every
possible collaborator behaviour.
-/

namespace EmpathyEngine

/-- Python int() truncation toward zero, applied to an exact rational. -/
def pyInt (q : ℚ) : ℤ :=
  if 0 ≤ q then ⌊q⌋ else -⌊-q⌋

/-! ## voice_mapper.py -/

/-- Result of VoiceMapper.map (class VoiceParams in voice_mapper.py). -/
structure VoiceParams where
  rate : ℤ
  pitch : ℚ
  volume : ℚ
deriving DecidableEq, Repr

/-- BASELINE_RATE = 200 (wpm). -/
def BASELINE_RATE : ℤ := 200

/-- BASELINE_PITCH = 1.0. -/
def BASELINE_PITCH : ℚ := 1

/-- BASELINE_VOLUME = 0.85. -/
def BASELINE_VOLUME : ℚ := 0.85

/-- EMOTION_PROFILE dict: emotion ↦ (rate_delta, pitch_mult, vol_delta).
Missing keys give none, mirroring dict.get returning the default. -/
def EMOTION_PROFILE : String → Option (ℤ × ℚ × ℚ)
  | "joy"         => some (60,  1.35,  0.15)
  | "sadness"     => some (-50, 0.78, -0.15)
  | "anger"       => some (40,  1.22,  0.15)
  | "surprise"    => some (70,  1.45,  0.10)
  | "fear"        => some (50,  1.18, -0.10)
  | "disgust"     => some (-20, 0.88, -0.05)
  | "neutral"     => some (0,   1.00,  0.00)
  | "inquisitive" => some (15,  1.20,  0.05)
  | "concerned"   => some (-15, 0.92, -0.05)
  | "excited"     => some (65,  1.40,  0.15)
  | "calm"        => some (-30, 0.90, -0.10)
  | _             => none

/-- Class VoiceMapper: the three baselines taken at construction. -/
structure VoiceMapper where
  baseline_rate : ℤ
  baseline_pitch : ℚ
  baseline_volume : ℚ
deriving DecidableEq, Repr

/-- VoiceMapper() with the module-level default baselines. -/
def defaultVoiceMapper : VoiceMapper :=
  { baseline_rate := BASELINE_RATE
    baseline_pitch := BASELINE_PITCH
    baseline_volume := BASELINE_VOLUME }

/-- VoiceMapper.map.  The source clamps intensity into [0,1], looks the
emotion up in EMOTION_PROFILE with default EMOTION_PROFILE["neutral"]
(= (0, 1.00, 0.00)), then computes
  rate   = int(baseline_rate + rate_delta * intensity)
  pitch  = baseline_pitch + (pitch_mult - baseline_pitch) * intensity
  volume = max(0.1, min(1.0, baseline_volume + vol_delta * intensity)). -/
def VoiceMapper.map (m : VoiceMapper) (emotion : String) (intensity : ℚ) :
    VoiceParams :=
  let i : ℚ := max 0 (min 1 intensity)
  let profile := (EMOTION_PROFILE emotion).getD (0, 1.00, 0.00)
  { rate := pyInt ((m.baseline_rate : ℚ) + (profile.1 : ℚ) * i)
    pitch := m.baseline_pitch + (profile.2.1 - m.baseline_pitch) * i
    volume := max 0.1 (min 1 (m.baseline_volume + profile.2.2 * i)) }

/-- Python round-half-up at two decimal places, modelling the numeric effect
of the format specifier .2f in VoiceMapper.explain.  (Python formats the
IEEE double; on every value this development evaluates the specifier at,
the double is not at a decimal tie after representation, so the two agree;
the counterexample below is taken at such a robust, non-tie value.) -/
def pyRound2 (q : ℚ) : ℚ := (round (q * 100) : ℤ) / 100

/-- The numeric content of the string VoiceMapper.explain returns: the rate
is interpolated with {params.rate} (exact), the pitch with
{params.pitch:.2f} and the volume with {params.volume:.2f} (two decimal
places).  We embed the rendered string by the numbers it displays. -/
structure ExplainRendered where
  rate : ℤ
  pitch : ℚ
  volume : ℚ
deriving DecidableEq, Repr

/-- VoiceMapper.explain: recomputes params := self.map(emotion, intensity)
and renders its fields (no caching).  Modelled by the numbers the rendered
lines display. -/
def VoiceMapper.explain (m : VoiceMapper) (emotion : String) (intensity : ℚ) :
    ExplainRendered :=
  let params := m.map emotion intensity
  { rate := params.rate
    pitch := pyRound2 params.pitch
    volume := pyRound2 params.volume }

/-! ## emotion_detector.py -/

/-- EMOTION_CATEGORIES list. -/
def EMOTION_CATEGORIES : List String :=
  ["joy", "sadness", "anger", "surprise", "fear", "disgust", "neutral"]

/-- HF_LABEL_MAP dict: HuggingFace model labels to canonical labels. -/
def HF_LABEL_MAP : String → Option String
  | "joy"      => some "joy"
  | "sadness"  => some "sadness"
  | "anger"    => some "anger"
  | "surprise" => some "surprise"
  | "fear"     => some "fear"
  | "disgust"  => some "disgust"
  | "neutral"  => some "neutral"
  | _          => none

/-- VADER_POLARITY_MAP dict: coarse polarity to emotion. -/
def VADER_POLARITY_MAP : String → Option String
  | "positive" => some "joy"
  | "negative" => some "sadness"
  | "neutral"  => some "neutral"
  | _          => none

/-- The four scores SentimentIntensityAnalyzer.polarity_scores returns. -/
structure VaderScores where
  neg : ℚ
  neu : ℚ
  pos : ℚ
  compound : ℚ
deriving DecidableEq, Repr

/-- Result of emotion analysis (class EmotionResult).  hf_scores is the
insertion-ordered dict built from the classifier output. -/
structure EmotionResult where
  text : String
  primary_emotion : String
  intensity : ℚ
  granular_label : String
  vader_scores : VaderScores
  hf_scores : List (String × ℚ)
deriving DecidableEq, Repr

/-- EmotionDetector._vader_polarity: bucket the compound score, both
thresholds inclusive. -/
def vader_polarity (scores : VaderScores) : String :=
  if scores.compound ≥ 0.05 then "positive"
  else if scores.compound ≤ -0.05 then "negative"
  else "neutral"

/-- EmotionDetector._compute_intensity:
min(abs(vader_scores["compound"]) * 1.2, 1.0). -/
def compute_intensity (vader_scores : VaderScores) : ℚ :=
  min (|vader_scores.compound| * 1.2) 1

/-- Python dict insertion: a repeated key overwrites in place, a new key
appends. -/
def dictInsert (d : List (String × ℚ)) (k : String) (v : ℚ) :
    List (String × ℚ) :=
  if d.any (fun p => p.1 = k) then
    d.map (fun p => if p.1 = k then (k, v) else p)
  else d ++ [(k, v)]

/-- The dict comprehension of _hf_analyse: insertion-ordered dict from the
list of (label, score) records. -/
def dictOfResults (results : List (String × ℚ)) : List (String × ℚ) :=
  results.foldl (fun d p => dictInsert d p.1 p.2) []

/-- Python max(scores, key=scores.get): the first key attaining the maximal
score (a later key replaces only on a strictly greater score); none on an
empty dict, where Python raises ValueError. -/
def maxKey : List (String × ℚ) → Option String
  | [] => none
  | p :: rest =>
    some ((rest.foldl (fun best q => if q.2 > best.2 then q else best) p).1)

/-- An exception-throwing collaborator call is an Except: error carries the
exception text. -/
abbrev PyResult (α : Type) := Except String α

/-- A HuggingFace classifier as EmotionDetector uses it: the value
self.hf_classifier(text)[0], a list of (label, score) records, or the
exception the pipeline call raises. -/
abbrev HFClassifier := String → PyResult (List (String × ℚ))

/-- EmotionDetector._hf_analyse: call the classifier, build the scores dict
and take the arg-max label.  No exception handling here: a classifier
exception propagates, and an empty result makes max raise ValueError. -/
def hf_analyse (classifier : HFClassifier) (text : String) :
    PyResult (List (String × ℚ) × String) :=
  match classifier text with
  | .error e => .error e
  | .ok results =>
    let scores := dictOfResults results
    match maxKey scores with
    | none => .error "ValueError: max() arg is an empty sequence"
    | some top_label => .ok (scores, top_label)

/-- EmotionDetector.detect.  The detector state is the pair of
collaborators: the VADER analyser (a total score function) and the optional
HuggingFace classifier (self.hf_classifier, none in VADER-only mode).
The source has no try/except in detect, so a classifier failure surfaces
as an error value; dict indexing VADER_POLARITY_MAP[polarity] is modelled
with a KeyError on a missing key (never reached). -/
def detect (vader : String → VaderScores) (hf_classifier : Option HFClassifier)
    (text : String) : PyResult EmotionResult :=
  let vader_scores := vader text
  let intensity := compute_intensity vader_scores
  match hf_classifier with
  | some classifier =>
    match hf_analyse classifier text with
    | .error e => .error e
    | .ok (hf_scores, granular_label) =>
      .ok { text := text
            primary_emotion := (HF_LABEL_MAP granular_label).getD granular_label
            intensity := intensity
            granular_label := granular_label
            vader_scores := vader_scores
            hf_scores := hf_scores }
  | none =>
    let polarity := vader_polarity vader_scores
    match VADER_POLARITY_MAP polarity with
    | none => .error ("KeyError: " ++ polarity)
    | some primary_emotion =>
      .ok { text := text
            primary_emotion := primary_emotion
            intensity := intensity
            granular_label := primary_emotion
            vader_scores := vader_scores
            hf_scores := [] }

/-! ## tts_engine.py -/

/-- A speech backend as the OS provides it: given the backend name, the
text and the voice parameters, produce an audio file path or raise.  The
three private _synthesize_* methods wrap OS facilities (the say command,
pyttsx3 subprocesses, the gTTS network call), so they are a parameter of
the embedding. -/
abbrev BackendRunner := String → String → VoiceParams → PyResult String

/-- TTSEngine.__init__: "auto" resolves to macos_say on macOS and pyttsx3
elsewhere; any other string is lowercased and stored. -/
def ttsInit (backend : String) (is_macos : Bool) : String :=
  if backend = "auto" then (if is_macos then "macos_say" else "pyttsx3")
  else backend.toLower

/-- TTSEngine.synthesize backend dispatch: route to the backend named by
self.backend, or raise ValueError("Unknown TTS backend: ...") without
invoking any backend (so no audio file is produced on that path). -/
def TTSEngine.synthesize (backend : String) (run : BackendRunner)
    (text : String) (params : VoiceParams) : PyResult String :=
  if backend = "macos_say" then run "macos_say" text params
  else if backend = "pyttsx3" then run "pyttsx3" text params
  else if backend = "gtts" then run "gtts" text params
  else .error ("Unknown TTS backend: " ++ backend)

/-! ## engine.py -/

/-- The dict EmpathyEngine.process returns (time_ms omitted: wall-clock
time is an external effect). -/
structure ProcessResult where
  emotion : EmotionResult
  voice : VoiceParams
  mapping : ExplainRendered
  audio : String
deriving DecidableEq, Repr

/-- EmpathyEngine.process: detect, map, explain, synthesize.  backend is
the current value of self.tts.backend; collaborators are parameters. -/
def process (vader : String → VaderScores) (hf_classifier : Option HFClassifier)
    (run : BackendRunner) (mapper : VoiceMapper) (backend : String)
    (text : String) : PyResult ProcessResult :=
  match detect vader hf_classifier text with
  | .error e => .error e
  | .ok emotion =>
    let voice_params := mapper.map emotion.primary_emotion emotion.intensity
    let mapping := mapper.explain emotion.primary_emotion emotion.intensity
    match TTSEngine.synthesize backend run text voice_params with
    | .error e => .error e
    | .ok audio_path =>
      .ok { emotion := emotion, voice := voice_params
            mapping := mapping, audio := audio_path }

/-! ## web/app.py -/

/-- Python str.strip() with no argument: drop whitespace from both ends.
(Defined structurally on the character list so that concrete requests
evaluate by kernel reduction.) -/
def pyStrip (s : String) : String :=
  ⟨((s.data.dropWhile Char.isWhitespace).reverse.dropWhile
      Char.isWhitespace).reverse⟩

/-- The JSON body of a POST /synthesize request: the two fields the route
reads, each possibly absent. -/
structure SynthesizeRequest where
  text : Option String
  engine : Option String

/-- An HTTP response, by status code (the JSON payload is determined by the
ProcessResult or the exception text). -/
structure HttpResponse where
  status : ℕ
deriving DecidableEq, Repr

/-- The /synthesize route of web/app.py.  shared_backend is the value of
the process-wide engine's tts.backend field when the request arrives; the
result pairs the value of that field AFTER the request with the response.
The route reads text (default "", then .strip()), answers 400 on empty
text, binds backend = data.get("engine", "pyttsx3"), executes
engine.tts.backend = backend (overwriting the shared mutable field,
without validation), then answers 500 on any exception from
engine.process and 200 otherwise. -/
def WebApp.synthesize (vader : String → VaderScores)
    (hf_classifier : Option HFClassifier) (run : BackendRunner)
    (mapper : VoiceMapper) (shared_backend : String)
    (req : SynthesizeRequest) : String × HttpResponse :=
  let text := pyStrip (req.text.getD "")
  if text = "" then (shared_backend, { status := 400 })
  else
    let backend := req.engine.getD "pyttsx3"
    match process vader hf_classifier run mapper backend text with
    | .error _ => (backend, { status := 500 })
    | .ok _ => (backend, { status := 200 })

/-! ## Concrete collaborator instances, used to instantiate the theorems -/

/-- A VADER analyser giving every text compound score 0.5. -/
def cVader : String → VaderScores :=
  fun _ => { neg := 0, neu := 1, pos := 0, compound := 1/2 }

/-- A classifier whose top (and only) label lies outside HF_LABEL_MAP. -/
def cClf : HFClassifier := fun _ => .ok [("curiosity", 0.9)]

/-- A classifier that raises during classification. -/
def cBoomClf : HFClassifier := fun _ => .error "boom"

/-- A backend runner that always produces an audio file. -/
def cRun : BackendRunner := fun _ _ _ => .ok "out.wav"

/-- The EmotionResult detect produces from cVader in VADER-only mode. -/
def cResultHalf : EmotionResult :=
  { text := "hi", primary_emotion := "joy",
    intensity := compute_intensity (cVader "hi"), granular_label := "joy",
    vader_scores := cVader "hi", hf_scores := [] }

end EmpathyEngine

/-! # Theorems -/

namespace EmpathyEngine

/-- Helper: _vader_polarity only returns keys of VADER_POLARITY_MAP, so the
dict indexing in the VADER-only branch of detect never raises KeyError. -/
theorem vader_polarity_mapsTo (s : VaderScores) :
    ∃ q, VADER_POLARITY_MAP (vader_polarity s) = some q := by
  unfold vader_polarity
  split_ifs <;> exact ⟨_, rfl⟩

/-- Helper: in VADER-only mode (hf_classifier = None) detect always
returns an EmotionResult. -/
theorem detect_none_ok (vader : String → VaderScores) (t : String) :
    ∃ r, detect vader none t = .ok r := by
  obtain ⟨q, hq⟩ := vader_polarity_mapsTo (vader t)
  refine ⟨{ text := t, primary_emotion := q,
            intensity := compute_intensity (vader t), granular_label := q,
            vader_scores := vader t, hf_scores := [] }, ?_⟩
  unfold detect
  dsimp only
  rw [hq]

/-- Helper: the general pitch interpolation law of VoiceMapper.map. -/
theorem map_pitch_formula (m : VoiceMapper) (emotion : String) (rd : ℤ)
    (pt vd : ℚ) (i : ℚ) (h0 : 0 ≤ i) (h1 : i ≤ 1)
    (hp : EMOTION_PROFILE emotion = some (rd, pt, vd)) :
    (m.map emotion i).pitch = m.baseline_pitch + (pt - m.baseline_pitch) * i := by
  unfold VoiceMapper.map
  rw [hp]
  dsimp only [Option.getD]
  rw [min_eq_right h1, max_eq_right h0]

/-- Helper: VoiceMapper.map on "joy" at intensity 1/3 evaluated. -/
theorem map_joy_third :
    defaultVoiceMapper.map "joy" (1/3) =
      { rate := 220, pitch := 67/60, volume := 9/10 } := by
  unfold VoiceMapper.map defaultVoiceMapper EMOTION_PROFILE
  norm_num [min_def, max_def, pyInt, BASELINE_RATE, BASELINE_PITCH,
    BASELINE_VOLUME]

/-- Helper: the two-decimal rounding of the .2f specifier moves a value by
at most 1/200. -/
theorem pyRound2_close (q : ℚ) : |pyRound2 q - q| ≤ 1/200 := by
  unfold pyRound2
  have h : |q * 100 - (round (q * 100) : ℚ)| ≤ 1/2 := abs_sub_round (q * 100)
  have e : ((round (q * 100) : ℤ) : ℚ) / 100 - q =
      ((round (q * 100) : ℚ) - q * 100) / 100 := by ring
  rw [e, abs_div, abs_of_pos (by norm_num : (0:ℚ) < (100:ℚ)), abs_sub_comm]
  linarith

/-- Helper: detect on cVader in VADER-only mode, evaluated. -/
theorem detect_cVader_hi : detect cVader none "hi" = .ok cResultHalf := by
  have hp : vader_polarity (cVader "hi") = "positive" := by
    unfold vader_polarity cVader
    norm_num
  unfold detect
  dsimp only
  rw [hp]
  rfl

/-- Helper: TTSEngine.synthesize raises ValueError on a backend outside
the three supported names, without invoking any backend. -/
theorem tts_synthesize_unknown (backend : String)
    (h1 : backend ≠ "macos_say") (h2 : backend ≠ "pyttsx3")
    (h3 : backend ≠ "gtts") (run : BackendRunner) (text : String)
    (params : VoiceParams) :
    TTSEngine.synthesize backend run text params =
      .error ("Unknown TTS backend: " ++ backend) := by
  unfold TTSEngine.synthesize
  rw [if_neg h1, if_neg h2, if_neg h3]

/-- C4: for every emotion in the profile table and every intensity in
[0,1], map's pitch interpolates toward the absolute target multiplier,
pitch = baselinePitch + (pitchTarget - baselinePitch) * intensity; in
particular map("joy", 0.5).pitch = 1.0 + (1.35 - 1.0) * 0.5 = 1.175. -/
theorem C4_pitch_interpolation (m : VoiceMapper) (emotion : String)
    (rd : ℤ) (pt vd : ℚ) (i : ℚ) (h0 : 0 ≤ i) (h1 : i ≤ 1)
    (hp : EMOTION_PROFILE emotion = some (rd, pt, vd)) :
    (m.map emotion i).pitch = m.baseline_pitch + (pt - m.baseline_pitch) * i ∧
    (defaultVoiceMapper.map "joy" (1/2)).pitch = 1 + (1.35 - 1) * (1/2) ∧
    (defaultVoiceMapper.map "joy" (1/2)).pitch = 1.175 := by
  have hj := map_pitch_formula defaultVoiceMapper "joy" 60 1.35 0.15 (1/2)
    (by norm_num) (by norm_num) rfl
  refine ⟨map_pitch_formula m emotion rd pt vd i h0 h1 hp, ?_, ?_⟩
  · rw [hj]; norm_num [defaultVoiceMapper, BASELINE_PITCH]
  · rw [hj]; norm_num [defaultVoiceMapper, BASELINE_PITCH]

/-- C4 witness: the theorem instantiated at "joy", intensity 1/2. -/
theorem C4_pitch_interpolation_witness :
    (defaultVoiceMapper.map "joy" (1/2)).pitch = 1.175 :=
  (C4_pitch_interpolation defaultVoiceMapper "joy" 60 1.35 0.15 (1/2)
    (by norm_num) (by norm_num) rfl).2.2

/-- C7: any emotion not in the profile table is mapped exactly like
"neutral", at every intensity; map is a total function, so it never
throws. -/
theorem C7_unknown_emotion_neutral (m : VoiceMapper) (emotion : String)
    (h : EMOTION_PROFILE emotion = none) (i : ℚ) :
    m.map emotion i = m.map "neutral" i := by
  unfold VoiceMapper.map
  rw [h]
  rfl

/-- C7 witness: "curiosity" is not in the profile table and maps like
"neutral" at intensity 3/4. -/
theorem C7_unknown_emotion_neutral_witness :
    defaultVoiceMapper.map "curiosity" (3/4) =
      defaultVoiceMapper.map "neutral" (3/4) :=
  C7_unknown_emotion_neutral defaultVoiceMapper "curiosity" rfl (3/4)

/-- C8: for every mapper, emotion string and intensity (also outside
[0,1]), the volume of map's result lies in [0.1, 1.0]. -/
theorem C8_volume_clamped (m : VoiceMapper) (emotion : String) (i : ℚ) :
    0.1 ≤ (m.map emotion i).volume ∧ (m.map emotion i).volume ≤ 1 := by
  unfold VoiceMapper.map
  exact ⟨le_max_left _ _, max_le (by norm_num) (min_le_left _ _)⟩

/-- C5: whenever detect returns a result, its intensity is
min(|compound| * 1.2, 1.0) of the sentiment scorer's compound score; in
particular compound 0.5 gives 0.6, compound -1 gives 1 (clamped) and
compound 0 gives 0. -/
theorem C5_intensity_formula (vader : String → VaderScores)
    (hf : Option HFClassifier) (text : String) (r : EmotionResult)
    (h : detect vader hf text = .ok r) :
    r.intensity = min (|(vader text).compound| * 1.2) 1 ∧
    compute_intensity { neg := 0, neu := 0, pos := 0, compound := 1/2 } = 0.6 ∧
    compute_intensity { neg := 0, neu := 0, pos := 0, compound := -1 } = 1 ∧
    compute_intensity { neg := 0, neu := 0, pos := 0, compound := 0 } = 0 := by
  refine ⟨?_, ?_, ?_, ?_⟩
  · unfold detect at h
    cases hf with
    | none =>
      dsimp only at h
      split at h
      · exact absurd h (by simp)
      · injection h with h2
        subst h2
        rfl
    | some c =>
      dsimp only at h
      split at h
      · exact absurd h (by simp)
      · injection h with h2
        subst h2
        rfl
  all_goals norm_num [compute_intensity, min_def, abs]

/-- C5 witness: the theorem instantiated at the VADER-only detector on
cVader (compound 0.5), whose detect result is cResultHalf. -/
theorem C5_intensity_formula_witness :
    cResultHalf.intensity = min (|(cVader "hi").compound| * 1.2) 1 :=
  (C5_intensity_formula cVader none "hi" cResultHalf detect_cVader_hi).1

/-- C6: with no fine-grained classifier configured, detect's primary
emotion (and granular label) is determined by the polarity buckets:
compound ≥ 0.05 gives "joy", compound ≤ -0.05 gives "sadness", otherwise
"neutral"; _vader_polarity labels the buckets "positive" / "negative" /
"neutral" with both boundaries inclusive. -/
theorem C6_polarity_fallback (vader : String → VaderScores) (t : String) :
    ((detect vader none t).map
        (fun r => (r.primary_emotion, r.granular_label)) =
      .ok (if (vader t).compound ≥ 0.05 then ("joy", "joy")
           else if (vader t).compound ≤ -0.05 then ("sadness", "sadness")
           else ("neutral", "neutral"))) ∧
    vader_polarity { neg := 0, neu := 0, pos := 0, compound := 0.05 } =
      "positive" ∧
    vader_polarity { neg := 0, neu := 0, pos := 0, compound := -0.05 } =
      "negative" ∧
    vader_polarity { neg := 0, neu := 0, pos := 0, compound := 0 } =
      "neutral" := by
  refine ⟨?_, ?_, ?_, ?_⟩
  · unfold detect vader_polarity
    dsimp only
    split_ifs <;> rfl
  all_goals norm_num [vader_polarity]

/-- C1 as stated is false: the counterexample classifier cClf returns the
label "curiosity", which is not in HF_LABEL_MAP; detect passes it through
unchanged as granular_label AND as primary_emotion (not "neutral"), so
primary_emotion leaves the enumerated emotions. -/
theorem C1_neutral_coercion_counterexample :
    ((detect cVader (some cClf) "hello").map
        (fun r => (r.primary_emotion, r.granular_label)) =
      .ok ("curiosity", "curiosity")) ∧
    ("curiosity" : String) ≠ "neutral" ∧
    "curiosity" ∉ EMOTION_CATEGORIES :=
  ⟨rfl, by decide, by decide⟩

/-- C1 amended: when the classifier's top label is not in HF_LABEL_MAP,
detect returns it unchanged as granular_label and ALSO as primary_emotion
(HF_LABEL_MAP.get(label, label) defaults to the label itself, not to
"neutral"), so primary_emotion is not coerced into the enumerated
emotions. -/
theorem C1_unknown_label_passthrough (vader : String → VaderScores)
    (clf : HFClassifier) (text : String) (scores : List (String × ℚ))
    (label : String) (hclf : hf_analyse clf text = .ok (scores, label))
    (hmap : HF_LABEL_MAP label = none) :
    (detect vader (some clf) text).map
        (fun r => (r.primary_emotion, r.granular_label)) =
      .ok (label, label) := by
  unfold detect
  dsimp only
  rw [hclf]
  simp [hmap, Except.map]

/-- C1 witness: the amended theorem instantiated at cClf, whose top label
"curiosity" is outside HF_LABEL_MAP. -/
theorem C1_unknown_label_passthrough_witness :
    (detect cVader (some cClf) "w").map
        (fun r => (r.primary_emotion, r.granular_label)) =
      .ok ("curiosity", "curiosity") :=
  C1_unknown_label_passthrough cVader cClf "w" [("curiosity", 0.9)]
    "curiosity" rfl rfl

/-- C2 as stated is false: detect has no exception handling, so a
classifier that raises during classification makes detect propagate the
error instead of degrading to the polarity-only path. -/
theorem C2_graceful_degradation_counterexample :
    detect cVader (some cBoomClf) "hello" = .error "boom" := rfl

/-- C2 amended: only classifier-loading failures at construction are
absorbed (the detector then runs with hf_classifier = None, where detect
always returns an EmotionResult via the polarity path); an exception the
classifier throws during classification propagates out of detect
unchanged. -/
theorem C2_classifier_error_propagates (vader : String → VaderScores)
    (clf : HFClassifier) (text e : String) (h : clf text = .error e) :
    detect vader (some clf) text = .error e ∧
    ∀ t, ∃ r, detect vader none t = .ok r := by
  constructor
  · unfold detect hf_analyse
    dsimp only
    rw [h]
  · exact fun t => detect_none_ok vader t

/-- C2 witness: the amended theorem instantiated at the raising classifier
cBoomClf. -/
theorem C2_classifier_error_propagates_witness :
    detect cVader (some cBoomClf) "w" = .error "boom" :=
  (C2_classifier_error_propagates cVader cBoomClf "w" "boom" rfl).1

/-- C3: the claim states the spec's requirement and the code violates it:
serving a /synthesize request that names a backend overwrites the shared
engine's tts.backend field (engine.tts.backend = backend).  This theorem
evaluates the route at the failing input: the shared field, "macos_say"
before the request, is "gtts" after it. -/
theorem C3_backend_mutation_eval :
    WebApp.synthesize cVader none cRun defaultVoiceMapper "macos_say"
        { text := some "hi", engine := some "gtts" } =
      ("gtts", { status := 200 }) ∧
    ("gtts" : String) ≠ "macos_say" := by
  constructor
  · unfold WebApp.synthesize process
    dsimp only [Option.getD]
    rw [show pyStrip "hi" = "hi" from rfl, detect_cVader_hi]
    rfl
  · decide

/-- C9 as stated is false: explain renders pitch with two decimal places,
so re-parsing the rendered number does not reproduce map's pitch
bit-for-bit: for "joy" at intensity 1/3 the mapping's pitch is 67/60
(= 1.1166...), rendered as 1.12. -/
theorem C9_bitforbit_counterexample :
    (defaultVoiceMapper.explain "joy" (1/3)).pitch ≠
      (defaultVoiceMapper.map "joy" (1/3)).pitch ∧
    (defaultVoiceMapper.explain "joy" (1/3)).pitch = 28/25 ∧
    (defaultVoiceMapper.map "joy" (1/3)).pitch = 67/60 := by
  have hm : (defaultVoiceMapper.map "joy" (1/3)).pitch = 67/60 := by
    rw [map_joy_third]
  have he : (defaultVoiceMapper.explain "joy" (1/3)).pitch = 28/25 := by
    show pyRound2 (defaultVoiceMapper.map "joy" (1/3)).pitch = 28/25
    rw [hm]
    norm_num [pyRound2, round_eq, Int.floor_eq_iff]
  exact ⟨by rw [he, hm]; norm_num, he, hm⟩

/-- C9 amended: explain recomputes the mapping by calling map (no cache)
and renders exactly map's values, the rate verbatim and pitch and volume
rounded to two decimal places; re-parsing therefore reproduces the rate
bit-for-bit and pitch and volume only to within 1/200. -/
theorem C9_explain_rounding (m : VoiceMapper) (emotion : String) (i : ℚ) :
    (m.explain emotion i).rate = (m.map emotion i).rate ∧
    |(m.explain emotion i).pitch - (m.map emotion i).pitch| ≤ 1/200 ∧
    |(m.explain emotion i).volume - (m.map emotion i).volume| ≤ 1/200 :=
  ⟨rfl, pyRound2_close _, pyRound2_close _⟩

/-- C10: for every backend value outside macos_say / pyttsx3 / gtts,
TTSEngine.synthesize raises ValueError without invoking any backend (the
result does not depend on the runners, so no audio file is produced), and
the construction-time "auto" resolution picks macos_say on macOS and
pyttsx3 elsewhere; the /synthesize route forwards an unknown engine value
unvalidated into the shared engine, so such a request gets a 500 (the
ValueError is only caught by the blanket handler), not a 400. -/
theorem C10_unknown_backend_500 (backend : String) (run : BackendRunner)
    (text t shared : String) (params : VoiceParams)
    (vader : String → VaderScores)
    (h1 : backend ≠ "macos_say") (h2 : backend ≠ "pyttsx3")
    (h3 : backend ≠ "gtts") (ht : pyStrip t ≠ "") :
    TTSEngine.synthesize backend run text params =
      .error ("Unknown TTS backend: " ++ backend) ∧
    (∀ run2 : BackendRunner, TTSEngine.synthesize backend run2 text params =
      TTSEngine.synthesize backend run text params) ∧
    ttsInit "auto" true = "macos_say" ∧
    ttsInit "auto" false = "pyttsx3" ∧
    (WebApp.synthesize vader none run defaultVoiceMapper shared
        { text := some t, engine := some backend }).2.status = 500 := by
  refine ⟨tts_synthesize_unknown backend h1 h2 h3 run text params,
    ?_, rfl, rfl, ?_⟩
  · intro run2
    rw [tts_synthesize_unknown backend h1 h2 h3 run2 text params,
      tts_synthesize_unknown backend h1 h2 h3 run text params]
  · unfold WebApp.synthesize
    dsimp only [Option.getD]
    rw [if_neg ht]
    obtain ⟨r, hr⟩ := detect_none_ok vader (pyStrip t)
    unfold process
    rw [hr]
    dsimp only
    rw [tts_synthesize_unknown backend h1 h2 h3 run (pyStrip t) _]

/-- C10 witness: the theorem instantiated at the unknown backend "espeak"
and a request with nonempty text. -/
theorem C10_unknown_backend_500_witness :
    (WebApp.synthesize cVader none cRun defaultVoiceMapper "macos_say"
        { text := some "hi", engine := some "espeak" }).2.status = 500 :=
  (C10_unknown_backend_500 "espeak" cRun "x" "hi" "macos_say"
    { rate := 200, pitch := 1, volume := 0.85 } cVader
    (by decide) (by decide) (by decide) (by decide)).2.2.2.2

end EmpathyEngine
